import Mathlib

/-!
Shallow embedding of the OrcaAI request-orchestration core (Go) in Lean 4.

Conventions of the embedding:
* Go `float64` values are modelled as exact rationals (`ℚ`); all the
  arithmetic the orchestrator performs on them (+, *, /, min, comparison)
  is exact on the concrete decimal constants involved.
* Go `int` is modelled as `Nat` (all the quantities involved are
  non-negative counters, lengths and durations).
* `time.Time` / `time.Duration` are modelled as `Nat` nanoseconds.
* Go maps are modelled as functions into `Option`.
* The MD5 digest used by `GenerateCacheKey` is Go standard-library code,
  not code of this repository; it is abstracted as a `digest` parameter
  applied to the exact pre-digest string the source builds.
-/

namespace OrcaAI

/-- Provider descriptor, translated from `Provider` in the orchestrator
(`part_007`): identity, economics, performance, capacity, capabilities. -/
structure Provider where
  name : String
  model : String
  costPer1K : ℚ
  avgLatency : Nat
  reliability : ℚ
  maxTokens : Nat
  capabilities : List String
deriving DecidableEq, Repr

/-- Routing result, translated from `RoutingResult` in `part_007`. -/
structure RoutingResult where
  provider : String
  model : String
  confidence : ℚ
  reasoning : String
  fallbacks : List Provider
deriving DecidableEq, Repr

/-- Routing criteria (score weights), translated from `RoutingCriteria`. -/
structure RoutingCriteria where
  costWeight : ℚ
  latencyWeight : ℚ
  reliabilityWeight : ℚ
  qualityWeight : ℚ
deriving DecidableEq, Repr

/-- Per-(provider,model) health record, translated from `ProviderStatus`
in `part_007`.  `lastCheck` is a `time.Time` in nanoseconds. -/
structure ProviderStatus where
  name : String
  model : String
  healthy : Bool
  lastCheck : Nat
  errorCount : Nat
  lastError : String
deriving DecidableEq, Repr

/-- Model of Go's `math.Min` on the exact rationals the orchestrator
manipulates (no NaN/Inf arise on these inputs). -/
def ratMin (a b : ℚ) : ℚ := if a ≤ b then a else b

/-- Text-generation descriptor of `(openai, gpt-4)` from the
`availableProviders` literal. -/
def gpt4TG : Provider :=
  ⟨"openai", "gpt-4", 0.03, 2000, 0.95, 8000,
    ["text-generation", "reasoning", "code"]⟩

/-- Text-generation descriptor of `(openai, gpt-3.5-turbo)`. -/
def turboTG : Provider :=
  ⟨"openai", "gpt-3.5-turbo", 0.002, 1000, 0.90, 4000,
    ["text-generation", "conversation"]⟩

/-- Text-generation descriptor of `(claude, claude-3-opus)`. -/
def opusTG : Provider :=
  ⟨"claude", "claude-3-opus", 0.015, 3000, 0.98, 200000,
    ["text-generation", "reasoning", "analysis"]⟩

/-- Text-generation descriptor of `(claude, claude-3-sonnet)`. -/
def sonnetTG : Provider :=
  ⟨"claude", "claude-3-sonnet", 0.003, 1500, 0.95, 200000,
    ["text-generation", "conversation"]⟩

/-- Text-generation descriptor of `(gemini, gemini-pro)`. -/
def geminiTG : Provider :=
  ⟨"gemini", "gemini-pro", 0.001, 2500, 0.85, 30000,
    ["text-generation", "multimodal"]⟩

/-- The static provider table, translated field by field from the
`availableProviders` map literal in `part_007`. -/
def availableProviders : String → Option (List Provider)
  | "text-generation" => some [gpt4TG, turboTG, opusTG, sonnetTG, geminiTG]
  | "summarization" => some
    [ ⟨"claude", "claude-3-sonnet", 0.003, 1500, 0.95, 200000,
        ["summarization", "analysis"]⟩,
      ⟨"openai", "gpt-3.5-turbo", 0.002, 1000, 0.90, 4000,
        ["summarization"]⟩ ]
  | "code-generation" => some
    [ ⟨"openai", "gpt-4", 0.03, 2000, 0.95, 8000,
        ["code-generation", "debugging"]⟩,
      ⟨"claude", "claude-3-opus", 0.015, 3000, 0.98, 200000,
        ["code-generation", "code-review"]⟩ ]
  | _ => none

/-- Default routing criteria, translated from `defaultCriteria`. -/
def defaultCriteria : RoutingCriteria :=
  ⟨0.3, 0.3, 0.3, 0.1⟩

/-- Static quality matrix, translated from the `qualityMatrix` literal in
`calculateQualityScore` (`part_007`). -/
def qualityMatrix : String → String → Option ℚ
  | "gpt-4", "text-generation" => some 0.95
  | "gpt-4", "code-generation" => some 0.90
  | "gpt-4", "summarization" => some 0.85
  | "gpt-4", "reasoning" => some 0.95
  | "gpt-3.5-turbo", "text-generation" => some 0.80
  | "gpt-3.5-turbo", "code-generation" => some 0.70
  | "gpt-3.5-turbo", "summarization" => some 0.85
  | "gpt-3.5-turbo", "conversation" => some 0.90
  | "claude-3-opus", "text-generation" => some 0.98
  | "claude-3-opus", "code-generation" => some 0.95
  | "claude-3-opus", "summarization" => some 0.95
  | "claude-3-opus", "reasoning" => some 0.98
  | "claude-3-sonnet", "text-generation" => some 0.85
  | "claude-3-sonnet", "code-generation" => some 0.80
  | "claude-3-sonnet", "summarization" => some 0.90
  | "claude-3-sonnet", "conversation" => some 0.88
  | "gemini-pro", "text-generation" => some 0.75
  | "gemini-pro", "multimodal" => some 0.90
  | "gemini-pro", "summarization" => some 0.70
  | _, _ => none

/-- Quality score lookup, translated from `calculateQualityScore`:
the matrix entry for `(model, taskType)` when present, `0.7` otherwise. -/
def calculateQualityScore (provider : Provider) (taskType : String) : ℚ :=
  match qualityMatrix provider.model taskType with
  | some score => score
  | none => 0.7

/-- Provider score, translated from `calculateScore` (`part_007`):
normalized cost/latency scores, reliability, quality, a 0-or-1 token
capacity factor (`promptLength / 4` estimated tokens, Go integer
division), and the weighted sum multiplied by the capacity factor. -/
def calculateScore (provider : Provider) (promptLength : Nat)
    (taskType : String) : ℚ :=
  let costScore : ℚ := 1 - ratMin (provider.costPer1K / 0.05) 1
  let latencyScore : ℚ := 1 - ratMin ((provider.avgLatency : ℚ) / 5000) 1
  let reliabilityScore : ℚ := provider.reliability
  let qualityScore : ℚ := calculateQualityScore provider taskType
  let estimatedTokens : Nat := promptLength / 4
  let tokenCapacityScore : ℚ := if estimatedTokens > provider.maxTokens then 0 else 1
  let score : ℚ :=
    costScore * defaultCriteria.costWeight +
    latencyScore * defaultCriteria.latencyWeight +
    reliabilityScore * defaultCriteria.reliabilityWeight +
    qualityScore * defaultCriteria.qualityWeight
  score * tokenCapacityScore

end OrcaAI

namespace OrcaAI

/-- Closed-form score as the specification states it: the fixed-weight sum
with min-normalized cost and latency, zeroed when the token estimate
exceeds the descriptor capacity.  Written from the spec sentence for
comparison with `calculateScore`. -/
def specScore (provider : Provider) (tokenEstimate : Nat)
    (taskType : String) : ℚ :=
  if tokenEstimate > provider.maxTokens then 0
  else
    0.3 * (1 - ratMin (provider.costPer1K / 0.05) 1) +
    0.3 * (1 - ratMin ((provider.avgLatency : ℚ) / 5000) 1) +
    0.3 * provider.reliability +
    0.1 * calculateQualityScore provider taskType

/-- Normalized AI response payload, translated from the fields of
`models.AIResponse` / `AdapterResponse` that the orchestrator core reads
(content, identity, token usage, cost). -/
structure AIResponse where
  content : String
  provider : String
  model : String
  promptTokens : Nat
  completionTokens : Nat
  cost : ℚ
deriving DecidableEq, Repr

/-- Cache entry, translated from `CacheResult` in `cache.go`:
the stored response, creation time (ns), producing provider/model, key. -/
structure CacheResult where
  response : AIResponse
  createdAt : Nat
  provider : String
  model : String
  cachedKey : String
deriving DecidableEq, Repr

/-- In-memory cache contents (`InMemoryCache.data`, a Go map). -/
def CacheMap : Type := String → Option CacheResult

/-- Pre-digest string of `GenerateCacheKey` in `cache.go`:
`fmt.Sprintf("%s:%s:%s:%s", prompt, taskType, provider, model)`. -/
def generateCacheKeyInput (prompt taskType provider model : String) : String :=
  prompt ++ ":" ++ taskType ++ ":" ++ provider ++ ":" ++ model

/-- Cache key from `GenerateCacheKey`: the digest of the pre-digest string.
The MD5-and-hex step is Go standard-library code, abstracted as `digest`. -/
def GenerateCacheKey (digest : String → String)
    (prompt taskType provider model : String) : String :=
  digest (generateCacheKeyInput prompt taskType provider model)

/-- One hour in nanoseconds (`1*time.Hour`), the expiry window hardcoded
in `InMemoryCache.Get`. -/
def hourNs : Nat := 3600000000000

/-- Lookup, translated from `InMemoryCache.Get`: a stored entry younger
than one hour is returned; an older entry is deleted and the read is a
miss.  Returns the result and the possibly-updated map. -/
def inMemoryGet (data : CacheMap) (key : String) (now : Nat) :
    Option CacheResult × CacheMap :=
  match data key with
  | some result =>
      if now - result.createdAt < hourNs then (some result, data)
      else (none, fun k => if k = key then none else data k)
  | none => (none, data)

/-- Store, translated from `InMemoryCache.Set`: stamps `CreatedAt` with
the current time and overwrites the slot.  The requested `expiration`
argument is accepted and ignored, exactly as in the source. -/
def inMemorySet (data : CacheMap) (key : String) (result : CacheResult)
    (expiration : Nat) (now : Nat) : CacheMap :=
  fun k => if k = key then some { result with createdAt := now } else data k

/-- Health-map key (`fmt.Sprintf("%s:%s", provider, model)`). -/
def statusKey (provider model : String) : String := provider ++ ":" ++ model

/-- Health tracker state (`providerStatus`, a Go map). -/
def StatusMap : Type := String → Option ProviderStatus

/-- Empty health tracker (no records). -/
def emptyStatus : StatusMap := fun _ => none

/-- Health update, translated from `UpdateProviderStatus` in `part_007`:
creates a healthy record on first sight, stamps `LastCheck`, resets the
error counter on success, increments it on failure, and marks the record
unhealthy only once the counter exceeds 5. -/
def UpdateProviderStatus (m : StatusMap) (now : Nat)
    (provider model : String) (healthy : Bool) (err : Option String) :
    StatusMap :=
  let key := statusKey provider model
  let status : ProviderStatus :=
    match m key with
    | some s => s
    | none => ⟨provider, model, true, now, 0, ""⟩
  let status := { status with lastCheck := now }
  let status :=
    if healthy then
      { status with errorCount := 0, lastError := "", healthy := true }
    else
      let s := { status with errorCount := status.errorCount + 1 }
      let s : ProviderStatus :=
        match err with
        | some e => { s with lastError := e }
        | none => s
      if s.errorCount > 5 then { s with healthy := false } else s
  fun k => if k = key then some status else m k

/-- Five minutes in nanoseconds (`5*time.Minute`). -/
def fiveMinNs : Nat := 300000000000

/-- Health check, translated from `IsProviderHealthy`: no record means
healthy; a record older than five minutes is treated as healthy
(optimistic recovery); otherwise the stored flag decides. -/
def IsProviderHealthy (m : StatusMap) (now : Nat)
    (provider model : String) : Bool :=
  match m (statusKey provider model) with
  | none => true
  | some status =>
      if now - status.lastCheck > fiveMinNs then true else status.healthy

/-- Candidate pool for a task type: the registered descriptor list, or the
`text-generation` list when the task type is unknown (both
`GetFallbackProviders` and `autoRoute` perform this fallback). -/
def providersForTask (taskType : String) : List Provider :=
  match availableProviders taskType with
  | some providers => providers
  | none =>
      match availableProviders "text-generation" with
      | some providers => providers
      | none => []

/-- Inner index loop of the reliability sort in `GetFallbackProviders`
(`for j := i+1; j < len; j++ { if a[i].Reliability < a[j].Reliability
swap }`), with structural fuel bounding the iteration count. -/
def sortRelInner (a : Array Provider) (i j : Nat) (fuel : Nat) :
    Array Provider :=
  match fuel with
  | 0 => a
  | fuel + 1 =>
      if hj : j < a.size then
        if hi : i < a.size then
          let a' :=
            if (a.get ⟨i, hi⟩).reliability < (a.get ⟨j, hj⟩).reliability then
              a.swap ⟨i, hi⟩ ⟨j, hj⟩
            else a
          sortRelInner a' i (j + 1) fuel
        else a
      else a

/-- Outer index loop of the reliability sort in `GetFallbackProviders`
(`for i := 0; i < len-1; i++`), with structural fuel. -/
def sortRelOuter (a : Array Provider) (i : Nat) (fuel : Nat) :
    Array Provider :=
  match fuel with
  | 0 => a
  | fuel + 1 =>
      if i + 1 < a.size then
        sortRelOuter (sortRelInner a i (i + 1) a.size) (i + 1) fuel
      else a

/-- Reliability sort of `GetFallbackProviders` (descending selection
swap loop over the whole slice). -/
def sortByReliability (providers : List Provider) : List Provider :=
  (sortRelOuter providers.toArray 0 providers.length).toList

/-- Fallback list used by the handler path, translated from
`GetFallbackProviders`: candidates for the task minus the excluded
(provider, model) pair, kept only when healthy, then sorted by
descending reliability. -/
def GetFallbackProviders (m : StatusMap) (now : Nat)
    (taskType excludeProvider excludeModel : String) : List Provider :=
  let providers := providersForTask taskType
  let fallbacks := providers.filter fun provider =>
    !(provider.name = excludeProvider ∧ provider.model = excludeModel : Bool) &&
    IsProviderHealthy m now provider.name provider.model
  sortByReliability fallbacks

/-- Accumulating loop of `getFallbacks` in `part_007`: appends every
candidate that is not exactly the excluded pair and stops as soon as the
accumulated list has reached 2 entries (`if len(fallbacks) >= 2 break`,
checked after the conditional append). -/
def getFallbacksLoop (excludeProvider excludeModel : String) :
    List Provider → List Provider → List Provider
  | [], acc => acc
  | p :: rest, acc =>
      let acc' :=
        if p.name ≠ excludeProvider ∨ p.model ≠ excludeModel then
          acc ++ [p]
        else acc
      if acc'.length ≥ 2 then acc'
      else getFallbacksLoop excludeProvider excludeModel rest acc'

/-- Fallback list used by `autoRoute`, translated from `getFallbacks`:
at most 2 candidates in registration order, skipping the excluded pair. -/
def getFallbacks (taskType excludeProvider excludeModel : String) :
    List Provider :=
  getFallbacksLoop excludeProvider excludeModel
    (providersForTask taskType) []

/-- Zero value of the Go `Provider` struct (`var bestProvider Provider`). -/
def zeroProvider : Provider := ⟨"", "", 0, 0, 0, 0, []⟩

/-- Best-provider scan, translated from `scoreProviders`: starts from a
best score of −1 and keeps the first provider whose score strictly
exceeds the running best.  `promptLength` is `len(prompt)`. -/
def scoreProviders (providers : List Provider) (promptLength : Nat)
    (taskType : String) : Provider :=
  (providers.foldl
    (fun best p =>
      let score := calculateScore p promptLength taskType
      if best.1 < score then (score, p) else best)
    ((-1 : ℚ), zeroProvider)).2

/-- Confidence, translated from `calculateConfidence`: gap between the
best and second-best score, both computed at prompt length 1000 and task
`text-generation`, shifted by 0.5 and capped at 1. -/
def calculateConfidence (bestProvider : Provider)
    (allProviders : List Provider) : ℚ :=
  if allProviders.length ≤ 1 then 1
  else
    let bestScore := calculateScore bestProvider 1000 "text-generation"
    let secondBestScore := allProviders.foldl
      (fun sb p =>
        if p.name ≠ bestProvider.name ∨ p.model ≠ bestProvider.model then
          let score := calculateScore p 1000 "text-generation"
          if sb < score then score else sb
        else sb)
      0
    ratMin (0.5 + (bestScore - secondBestScore)) 1

/-- Go's `fmt.Sprintf("%v", xs)` on a string slice: entries joined by a
space inside brackets. -/
def goFormatSlice (xs : List String) : String :=
  "[" ++ String.intercalate " " xs ++ "]"

/-- Reasoning string, translated from `generateReasoning`: attribute tags
gathered in source order, defaulting to "balanced performance". -/
def generateReasoning (provider : Provider) (taskType : String) : String :=
  let reasons : List String :=
    (if provider.costPer1K < 0.01 then ["cost-effective"] else []) ++
    (if provider.avgLatency < 2000 then ["fast response"] else []) ++
    (if provider.reliability > 0.95 then ["high reliability"] else []) ++
    (if provider.maxTokens > 10000 then ["large context window"] else [])
  let reasons := if reasons.isEmpty then ["balanced performance"] else reasons
  "Selected for " ++ taskType ++ ": " ++ goFormatSlice reasons

/-- Pinned-provider lookup, translated from `findSpecificProvider`.  When
the task type is unknown the source scans the union of all task lists
(Go map iteration order is unspecified; the union is scanned in the fixed
order text-generation, summarization, code-generation, which decides
only which of several identical matching descriptor copies is returned). -/
def findSpecificProvider (name model taskType : String) : Option Provider :=
  let providers :=
    match availableProviders taskType with
    | some providers => providers
    | none =>
        (availableProviders "text-generation").getD [] ++
        (availableProviders "summarization").getD [] ++
        (availableProviders "code-generation").getD []
  providers.find? fun p => p.name = name ∧ p.model = model

/-- Reasoning string produced by the cache-hit branch of `RouteRequest`
and matched against by `AIQuery`. -/
def cacheHitReasoning : String := "Cache hit - returning cached result"

/-- Automatic routing, translated from `autoRoute`: defaults the task
type, resolves the candidate list, fails when it is empty, otherwise
scores providers and assembles the routing result. -/
def autoRoute (prompt taskType : String) : Except String RoutingResult :=
  let taskType := if taskType = "" then "text-generation" else taskType
  let providers := providersForTask taskType
  if providers.isEmpty then
    .error ("no providers available for task type: " ++ taskType)
  else
    let bestProvider := scoreProviders providers prompt.length taskType
    .ok ⟨bestProvider.name, bestProvider.model,
         calculateConfidence bestProvider providers,
         generateReasoning bestProvider taskType,
         getFallbacks taskType bestProvider.name bestProvider.model⟩

/-- Routing entry point, translated from `RouteRequest`: cache lookup
first (the global cache is modelled as always initialized, in-memory);
then the user-pinned provider when registered and healthy; otherwise
automatic routing.  Returns the result and the possibly updated cache
map (`Get` deletes expired entries). -/
def RouteRequest (digest : String → String) (cacheData : CacheMap)
    (status : StatusMap) (now : Nat)
    (prompt taskType preferredProvider preferredModel : String) :
    Except String RoutingResult × CacheMap :=
  let cacheKey :=
    GenerateCacheKey digest prompt taskType preferredProvider preferredModel
  let lookup := inMemoryGet cacheData cacheKey now
  match lookup.1 with
  | some cachedResult =>
      (.ok ⟨cachedResult.provider, cachedResult.model, 1, cacheHitReasoning,
            GetFallbackProviders status now taskType
              cachedResult.provider cachedResult.model⟩,
       lookup.2)
  | none =>
      if preferredProvider ≠ "" ∧ preferredModel ≠ "" then
        match findSpecificProvider preferredProvider preferredModel taskType with
        | some _ =>
            if IsProviderHealthy status now preferredProvider preferredModel then
              (.ok ⟨preferredProvider, preferredModel, 1,
                    "User-specified provider and model",
                    GetFallbackProviders status now taskType
                      preferredProvider preferredModel⟩,
               lookup.2)
            else (autoRoute prompt taskType, lookup.2)
        | none => (autoRoute prompt taskType, lookup.2)
      else (autoRoute prompt taskType, lookup.2)

/-- Routing with fallback support, translated from
`RouteRequestWithFallback`: delegates to `RouteRequest` and replaces the
fallback list with `GetFallbackProviders` (the strategy argument only
carries defaults and is not otherwise read). -/
def RouteRequestWithFallback (digest : String → String)
    (cacheData : CacheMap) (status : StatusMap) (now : Nat)
    (prompt taskType preferredProvider preferredModel : String) :
    Except String RoutingResult × CacheMap :=
  match RouteRequest digest cacheData status now
      prompt taskType preferredProvider preferredModel with
  | (.ok result, cd) =>
      (.ok { result with
              fallbacks := GetFallbackProviders status now taskType
                result.provider result.model },
       cd)
  | (.error e, cd) => (.error e, cd)

end OrcaAI

namespace OrcaAI

/-- Upstream payload of one OpenAI chat completion, as parsed by
`openAIAdapter.ChatCompletion` (`part_008`): choice message contents,
usage counters, optional error message. -/
structure OpenAIParsed where
  choices : List String
  promptTokens : Nat
  completionTokens : Nat
  errorMessage : String
deriving DecidableEq, Repr

/-- Adapter response, translated from `AdapterResponse` (`part_009`),
without the wall-clock latency field. -/
structure AdapterResponse where
  content : String
  provider : String
  model : String
  promptTokens : Nat
  completionTokens : Nat
  cost : ℚ
deriving DecidableEq, Repr

/-- Cost computed by `openAIAdapter.ChatCompletion`
(`cost := float64(promptTokens)*0.001 + float64(completionTokens)*0.002`):
constants hardcoded in the adapter. -/
def openAICost (promptTokens completionTokens : Nat) : ℚ :=
  (promptTokens : ℚ) * 0.001 + (completionTokens : ℚ) * 0.002

/-- Cost formula the specification prescribes: token count times the
descriptor's declared `cost_per_1k`, divided by 1000.  Written from the
spec sentence for comparison with `openAICost`. -/
def specDescriptorCost (descriptor : Provider) (tokens : Nat) : ℚ :=
  (tokens : ℚ) * descriptor.costPer1K / 1000

/-- Response assembly of `openAIAdapter.ChatCompletion` after the HTTP
exchange: surfaces the upstream error message, fails on an empty choice
list, otherwise returns the first choice content with usage counters and
the adapter-computed cost. -/
def openAIChatCompletion (model : String) (parsed : OpenAIParsed) :
    Except String AdapterResponse :=
  if parsed.errorMessage ≠ "" then .error parsed.errorMessage
  else
    match parsed.choices with
    | [] => .error "no response from OpenAI"
    | content :: _ =>
        .ok ⟨content, "openai", model, parsed.promptTokens,
             parsed.completionTokens,
             openAICost parsed.promptTokens parsed.completionTokens⟩

/-- Per-attempt budget of `makeAIRequest` in nanoseconds: the source
creates `context.WithTimeout(context.Background(), 30*time.Second)`,
a constant independent of the caller deadline and the provider. -/
def attemptTimeoutNs : Nat := 30000000000

/-- Per-attempt budget the specification prescribes (in nanoseconds):
`min(remaining_deadline, avg_latency_ms × 3, 30 s)`.  Written from the
spec sentence for comparison with `attemptTimeoutNs`. -/
def specAttemptTimeoutNs (remainingDeadlineNs avgLatencyMs : Nat) : Nat :=
  min remainingDeadlineNs (min (avgLatencyMs * 3 * 1000000) 30000000000)

/-- Behavior of the adapter fleet for one request: given provider, model
and prompt, the wall time the call consumes (bounded by the per-attempt
context timeout when adapters honor their deadline) and its outcome. -/
def AdapterBehavior : Type :=
  String → String → String → Nat × Except String AdapterResponse

/-- Single attempt, translated from `makeAIRequest`: registry lookup
(`GetProviderAdapter`), then one `ChatCompletion` call under the 30 s
context.  Returns the outcome, the number of adapter invocations made,
and the wall time consumed. -/
def makeAIRequest (registry : List String) (behavior : AdapterBehavior)
    (provider model prompt : String) :
    Except String AIResponse × Nat × Nat :=
  if provider ∈ registry then
    let (duration, outcome) := behavior provider model prompt
    match outcome with
    | .ok resp =>
        (.ok ⟨resp.content, resp.provider, resp.model, resp.promptTokens,
              resp.completionTokens, resp.cost⟩, 1, duration)
    | .error e => (.error e, 1, duration)
  else (.error ("unsupported provider: " ++ provider), 0, 0)

/-- Candidate loop of `makeAIRequestWithEnhancedFallback`: the primary
and then each fallback is attempted once, health is updated after every
attempt, and the chain fails with the source's terminal message once
exhausted.  Accumulates adapter invocations and wall time; no deadline
is consulted between attempts (none exists in the source). -/
def tryCandidates (registry : List String) (behavior : AdapterBehavior)
    (now : Nat) (prompt : String) :
    List (String × String) → StatusMap →
    Except String AIResponse × Nat × Nat × StatusMap
  | [], status =>
      (.error "all providers failed after fallback attempts", 0, 0, status)
  | (provider, model) :: rest, status =>
      match makeAIRequest registry behavior provider model prompt with
      | (.ok resp, calls, duration) =>
          (.ok resp, calls, duration,
           UpdateProviderStatus status now provider model true none)
      | (.error e, calls, duration) =>
          let status' := UpdateProviderStatus status now provider model
            false (some e)
          let (outcome, calls', duration', status'') :=
            tryCandidates registry behavior now prompt rest status'
          (outcome, calls + calls', duration + duration', status'')

/-- Fallback-aware execution, translated from
`makeAIRequestWithEnhancedFallback`: primary first, then the routing
result's fallbacks in order. -/
def makeAIRequestWithEnhancedFallback (registry : List String)
    (behavior : AdapterBehavior) (status : StatusMap) (now : Nat)
    (routing : RoutingResult) (prompt : String) :
    Except String AIResponse × Nat × Nat × StatusMap :=
  tryCandidates registry behavior now prompt
    ((routing.provider, routing.model) ::
      routing.fallbacks.map fun f => (f.name, f.model))
    status

/-- Response shape of the handler (`AIQueryResponse`), restricted to the
fields the orchestration logic determines (id, wall-clock latency and
timestamp omitted). -/
structure AIQueryRes where
  content : String
  provider : String
  model : String
  tokensInput : Nat
  tokensOutput : Nat
  cost : ℚ
  cacheHit : Bool
deriving DecidableEq, Repr

/-- Inbound request shape (`AIQueryRequest`).  `optWeights` stands for
scoring weights supplied inside the opaque `options` map; the handler
and router never read them (they are only passed through to the
upstream HTTP body). -/
structure AIQueryRequest where
  prompt : String
  taskType : String
  model : String
  maxTokens : Nat
  provider : String
  optWeights : Option (ℚ × ℚ × ℚ × ℚ)
deriving DecidableEq, Repr

/-- Unary request pipeline, translated from `AIQuery` in
`ai_handler.go`: route with fallback; a routing error fails the request;
the cache-hit reasoning marker short-circuits with a simulated response
(`"Cached response for: " + prompt`, zero cost, `cache_hit=true`) before
any adapter call; otherwise the fallback chain runs, a success is cached
under the responding provider/model and returned with `cache_hit=false`.
Returns the outcome, the adapter invocation count, and the final cache
and health maps.  (Metrics emission and request logging are
fire-and-forget side channels, not modelled.) -/
def AIQuery (digest : String → String) (registry : List String)
    (behavior : AdapterBehavior) (cacheData : CacheMap)
    (status : StatusMap) (now : Nat) (req : AIQueryRequest) :
    Except String AIQueryRes × Nat × CacheMap × StatusMap :=
  match RouteRequestWithFallback digest cacheData status now
      req.prompt req.taskType req.provider req.model with
  | (.error e, cd) =>
      (.error ("Failed to route request: " ++ e), 0, cd, status)
  | (.ok routingResult, cd) =>
      if routingResult.reasoning = cacheHitReasoning then
        (.ok ⟨"Cached response for: " ++ req.prompt,
              routingResult.provider, routingResult.model, 0, 0, 0, true⟩,
         0, cd, status)
      else
        match makeAIRequestWithEnhancedFallback registry behavior status
            now routingResult req.prompt with
        | (.ok aiResponse, calls, _, status') =>
            let key := GenerateCacheKey digest req.prompt req.taskType
              aiResponse.provider aiResponse.model
            let cd' := inMemorySet cd key
              ⟨aiResponse, 0, aiResponse.provider, aiResponse.model, key⟩
              hourNs now
            (.ok ⟨aiResponse.content, aiResponse.provider, aiResponse.model,
                  aiResponse.promptTokens, aiResponse.completionTokens,
                  aiResponse.cost, false⟩,
             calls, cd', status')
        | (.error e, calls, _, status') =>
            (.error ("AI request failed: " ++ e), calls, cd, status')

/-- Hex digit characters used by Go's `hex.EncodeToString`
(lowercase). -/
def hexDigitChar (n : Nat) : Char :=
  match n with
  | 0 => '0' | 1 => '1' | 2 => '2' | 3 => '3' | 4 => '4'
  | 5 => '5' | 6 => '6' | 7 => '7' | 8 => '8' | 9 => '9'
  | 10 => 'a' | 11 => 'b' | 12 => 'c' | 13 => 'd' | 14 => 'e'
  | _ => 'f'

/-- Hex encoding of one byte (high nibble then low nibble), as in Go's
`encoding/hex`. -/
def hexEncodeByte (b : Nat) : List Char :=
  [hexDigitChar (b / 16), hexDigitChar (b % 16)]

/-- Go's `hex.EncodeToString` over a byte slice (bytes as `Nat < 256`). -/
def hexEncode (bs : List Nat) : String :=
  ⟨bs.foldr (fun b acc => hexEncodeByte b ++ acc) []⟩

/-- Value of one hex character per Go's `encoding/hex` decoder: decimal
digits and both letter cases accepted, everything else rejected. -/
def fromHexChar (c : Char) : Option Nat :=
  if '0' ≤ c ∧ c ≤ '9' then some (c.toNat - '0'.toNat)
  else if 'a' ≤ c ∧ c ≤ 'f' then some (c.toNat - 'a'.toNat + 10)
  else if 'A' ≤ c ∧ c ≤ 'F' then some (c.toNat - 'A'.toNat + 10)
  else none

/-- Pairwise hex decoding of a character list: fails on a stray odd
character or an invalid digit, as Go's `hex.DecodeString` does. -/
def hexDecodeChars : List Char → Option (List Nat)
  | [] => some []
  | [_] => none
  | c1 :: c2 :: rest =>
      match fromHexChar c1, fromHexChar c2, hexDecodeChars rest with
      | some hi, some lo, some bs => some ((hi * 16 + lo) :: bs)
      | _, _, _ => none

/-- Go's `hex.DecodeString`. -/
def hexDecode (s : String) : Option (List Nat) :=
  hexDecodeChars s.data

/-- Key resolution, translated from `getKeyBytes` in `aesgcm.go`:
hex-decode the secret, then require exactly 32 bytes. -/
def getKeyBytes (secret : String) : Except String (List Nat) :=
  match hexDecode secret with
  | none => .error "invalid hex in secret key"
  | some b =>
      if b.length = 32 then .ok b
      else .error "secret key must be 32 bytes (AES-256)"

/-- Abstracted AES-GCM primitive (Go's `crypto/aes` + `crypto/cipher`,
standard-library code outside this repository): nonce size, `Seal`
without its destination prefix, and `Open`. -/
structure GCMScheme where
  nonceSize : Nat
  sealG : List Nat → List Nat → List Nat → List Nat
  openG : List Nat → List Nat → List Nat → Option (List Nat)

/-- Encryption, translated from `EncryptAESGCM` in `aesgcm.go`: resolve
the key, then hex-encode `gcm.Seal(nonce, nonce, plaintext, nil)` — the
random nonce (an explicit argument here) followed by the ciphertext. -/
def EncryptAESGCM (gcm : GCMScheme) (nonce : List Nat)
    (plaintext : List Nat) (secretHex : String) : Except String String :=
  match getKeyBytes secretHex with
  | .error e => .error e
  | .ok key => .ok (hexEncode (nonce ++ gcm.sealG key nonce plaintext))

/-- Iterated failure updates: `n` consecutive
`UpdateProviderStatus(provider, model, false, nil)` calls applied to a
health map, all at the same instant. -/
def applyFailures (m : StatusMap) (now : Nat) (provider model : String) :
    Nat → StatusMap
  | 0 => m
  | n + 1 =>
      UpdateProviderStatus (applyFailures m now provider model n) now
        provider model false none

/-- Decryption, translated from `DecryptAESGCM` in `aesgcm.go`: resolve
the key, hex-decode the payload, require at least a nonce, split nonce
from ciphertext and open. -/
def DecryptAESGCM (gcm : GCMScheme) (cipherHex secretHex : String) :
    Except String (List Nat) :=
  match getKeyBytes secretHex with
  | .error e => .error e
  | .ok key =>
      match hexDecode cipherHex with
      | none => .error "invalid hex in ciphertext"
      | some data =>
          if data.length < gcm.nonceSize then .error "ciphertext too short"
          else
            match gcm.openG key (data.take gcm.nonceSize)
                (data.drop gcm.nonceSize) with
            | some plaintext => .ok plaintext
            | none => .error "message authentication failed"

end OrcaAI

namespace OrcaAI

/-- C6.  The routing score computed by `calculateScore` equals the
specification's closed form: `0.3·(1 − min(cost_per_1k/0.05, 1)) +
0.3·(1 − min(avg_latency_ms/5000, 1)) + 0.3·reliability + 0.1·quality`,
where quality is the static `(model, task_type)` matrix entry (default
0.7), and the total is forced to 0 whenever the token estimate
(`len(prompt) / 4` in the source) exceeds the descriptor's
`max_tokens`. -/
theorem calculateScore_matches_spec (provider : Provider)
    (promptLength : Nat) (taskType : String) :
    calculateScore provider promptLength taskType =
      specScore provider (promptLength / 4) taskType := by
  unfold calculateScore specScore
  by_cases h : promptLength / 4 > provider.maxTokens
  · simp [h]
  · simp only [h, if_neg, if_false, if_true, defaultCriteria, mul_one]
    ring

/-- C9 counterexample.  The descriptor for `(openai, gpt-4)` declares
`cost_per_1k = 0.03`, so the specified cost of a 1000-prompt-token,
0-completion-token call is $0.03; the adapter's `ChatCompletion`
returns $1 for the same call (hardcoded `0.001/0.002` per-token
constants), contradicting the claim that cost is computed from the
descriptor's declared pricing. -/
theorem openAICost_ignores_descriptor_pricing :
    ((availableProviders "text-generation").getD [])[0]? =
      some ⟨"openai", "gpt-4", 0.03, 2000, 0.95, 8000,
        ["text-generation", "reasoning", "code"]⟩ ∧
    openAIChatCompletion "gpt-4" ⟨["hi"], 1000, 0, ""⟩ =
      .ok ⟨"hi", "openai", "gpt-4", 1000, 0, openAICost 1000 0⟩ ∧
    openAICost 1000 0 = 1 ∧
    specDescriptorCost
      ⟨"openai", "gpt-4", 0.03, 2000, 0.95, 8000,
        ["text-generation", "reasoning", "code"]⟩ 1000 = 0.03 ∧
    (1 : ℚ) ≠ 0.03 := by
  refine ⟨rfl, rfl, ?_, ?_, ?_⟩
  · norm_num [openAICost]
  · norm_num [specDescriptorCost]
  · norm_num

/-- C9 amended.  Every successful `ChatCompletion` response of the
OpenAI adapter carries `cost = prompt_tokens × 0.001 +
completion_tokens × 0.002`, constants hardcoded in the adapter and
independent of any descriptor pricing. -/
theorem openAIChatCompletion_cost_hardcoded (model : String)
    (parsed : OpenAIParsed) (r : AdapterResponse)
    (h : openAIChatCompletion model parsed = .ok r) :
    r.cost = (parsed.promptTokens : ℚ) * 0.001 +
      (parsed.completionTokens : ℚ) * 0.002 := by
  unfold openAIChatCompletion at h
  by_cases he : parsed.errorMessage ≠ ""
  · simp [he] at h
  · simp only [he, if_pos, if_neg, if_false, ite_false, ite_true] at h
    match hc : parsed.choices with
    | [] => rw [hc] at h; exact absurd h (by simp)
    | content :: rest =>
        rw [hc] at h
        simp only [Except.ok.injEq] at h
        rw [← h]
        rfl

/-- C9 witness for `openAIChatCompletion_cost_hardcoded` at a concrete
successful call. -/
theorem openAIChatCompletion_cost_hardcoded_witness :
    (⟨"hi", "openai", "gpt-4", 1000, 0, openAICost 1000 0⟩ :
        AdapterResponse).cost =
      ((1000 : Nat) : ℚ) * 0.001 + ((0 : Nat) : ℚ) * 0.002 :=
  openAIChatCompletion_cost_hardcoded "gpt-4" ⟨["hi"], 1000, 0, ""⟩ _ rfl

/-- Record created by a success update on an empty health map. -/
theorem update_success_fresh (now : Nat) (provider model : String) :
    UpdateProviderStatus emptyStatus now provider model true none
        (statusKey provider model) =
      some ⟨provider, model, true, now, 0, ""⟩ := by
  unfold UpdateProviderStatus emptyStatus
  simp

/-- Effect of one failure update (with no error object) on an existing
record: stamp the time, bump the counter, drop the healthy flag only
once the counter exceeds 5. -/
theorem update_failure_lookup (m : StatusMap) (now : Nat)
    (provider model : String) (s : ProviderStatus)
    (h : m (statusKey provider model) = some s) :
    UpdateProviderStatus m now provider model false none
        (statusKey provider model) =
      some { s with
             lastCheck := now
             errorCount := s.errorCount + 1
             healthy :=
               if s.errorCount + 1 > 5 then false else s.healthy } := by
  unfold UpdateProviderStatus
  simp only [h]
  by_cases h5 : s.errorCount + 1 > 5
  · simp [h5]
  · simp [h5]

/-- Shape of a fresh health record after `n` consecutive failures at one
instant: the error counter equals `n` and the record stays marked healthy
until the counter exceeds the hardcoded threshold 5. -/
theorem applyFailures_lookup (now : Nat) (provider model : String) :
    ∀ n : Nat,
      applyFailures (UpdateProviderStatus emptyStatus now provider model
          true none) now provider model n (statusKey provider model) =
        some ⟨provider, model, decide (n ≤ 5), now, n, ""⟩ := by
  intro n
  induction n with
  | zero => simpa using update_success_fresh now provider model
  | succ k ih =>
      have step := update_failure_lookup _ now provider model _ ih
      refine step.trans ?_
      by_cases h : k + 1 > 5
      · have h5 : decide (k + 1 ≤ 5) = false := by simp [Nat.not_le.mpr h]
        simp [h, h5] <;> omega
      · have hk1 : k + 1 ≤ 5 := Nat.not_lt.mp h
        have hk : k ≤ 5 := Nat.le_of_succ_le hk1
        simp [h, hk1, hk] <;> omega

/-- C3 counterexample.  Starting from a healthy record, 5 consecutive
failure updates leave the pair marked healthy: `UpdateProviderStatus`
trips the flag only when the counter strictly exceeds 5, so routing
still considers the pair eligible after exactly 5 failures, contrary to
the claimed threshold T=5. -/
theorem circuit_not_open_after_five_failures :
    IsProviderHealthy
      (applyFailures
        (UpdateProviderStatus emptyStatus 0 "openai" "gpt-4" true none)
        0 "openai" "gpt-4" 5)
      0 "openai" "gpt-4" = true := by
  unfold IsProviderHealthy
  rw [applyFailures_lookup]
  simp [fiveMinNs]

/-- C3 amended.  Starting from a healthy record, a (provider, model)
pair is excluded from routing eligibility after 6 (not 5) consecutive
failure updates; and any record whose age exceeds 5 minutes is treated
as healthy again regardless of its stored state. -/
theorem circuit_threshold_six_and_quarantine :
    (∀ (now : Nat) (provider model : String) (n : Nat), 6 ≤ n →
      IsProviderHealthy
        (applyFailures
          (UpdateProviderStatus emptyStatus now provider model true none)
          now provider model n)
        now provider model = false) ∧
    (∀ (m : StatusMap) (now : Nat) (provider model : String)
        (s : ProviderStatus),
      m (statusKey provider model) = some s →
      now - s.lastCheck > fiveMinNs →
      IsProviderHealthy m now provider model = true) := by
  constructor
  · intro now provider model n hn
    unfold IsProviderHealthy
    rw [applyFailures_lookup]
    have h5 : decide (n ≤ 5) = false := by
      simp only [decide_eq_false_iff_not]
      omega
    simp [h5, fiveMinNs]
  · intro m now provider model s hs hold
    unfold IsProviderHealthy
    rw [hs]
    simp [hold]

/-- C3 witness for `circuit_threshold_six_and_quarantine`: 6 failures
open the circuit for `(openai, gpt-4)`, and a record last checked 400 s
in the past (stored unhealthy, counter 7) reads as healthy. -/
theorem circuit_threshold_six_and_quarantine_witness :
    IsProviderHealthy
      (applyFailures
        (UpdateProviderStatus emptyStatus 0 "openai" "gpt-4" true none)
        0 "openai" "gpt-4" 6)
      0 "openai" "gpt-4" = false ∧
    IsProviderHealthy
      (fun k => if k = statusKey "openai" "gpt-4" then
          some ⟨"openai", "gpt-4", false, 0, 7, "boom"⟩ else none)
      400000000000 "openai" "gpt-4" = true :=
  ⟨circuit_threshold_six_and_quarantine.1 0 "openai" "gpt-4" 6 (by decide),
   circuit_threshold_six_and_quarantine.2 _ 400000000000 "openai" "gpt-4"
     ⟨"openai", "gpt-4", false, 0, 7, "boom"⟩ (by simp) (by decide)⟩

/-- C8 counterexample.  `InMemoryCache` ignores the requested TTL: an
entry stored with a 60 s TTL is still returned 120 s later (the read
path compares the age against a hardcoded 1 hour), contradicting the
claim that `get` misses once the requested TTL has elapsed. -/
theorem cache_requested_ttl_ignored :
    (inMemoryGet
      (inMemorySet (fun _ => none) "k"
        ⟨⟨"hi", "openai", "gpt-3.5-turbo", 5, 2, 0⟩, 0,
          "openai", "gpt-3.5-turbo", "k"⟩
        60000000000 0)
      "k" 120000000000).1 =
    some ⟨⟨"hi", "openai", "gpt-3.5-turbo", 5, 2, 0⟩, 0,
          "openai", "gpt-3.5-turbo", "k"⟩ := by
  simp [inMemoryGet, inMemorySet, hourNs]

/-- C8 amended.  `set(key, R, ttl)` followed by `get(key)` returns R
(with its creation time stamped by `set`) while the entry is younger
than the hardcoded 1 hour window, and misses — evicting the entry —
once it is at least 1 hour old, irrespective of the requested TTL. -/
theorem inMemory_roundtrip (data : CacheMap) (key : String)
    (result : CacheResult) (expiration s d : Nat) :
    (d < hourNs →
      inMemoryGet (inMemorySet data key result expiration s) key (s + d) =
        (some { result with createdAt := s },
         inMemorySet data key result expiration s)) ∧
    (hourNs ≤ d →
      inMemoryGet (inMemorySet data key result expiration s) key (s + d) =
        (none,
         fun k => if k = key then none
           else inMemorySet data key result expiration s k)) := by
  have hage : s + d - s = d := by omega
  constructor
  · intro hd
    unfold inMemoryGet inMemorySet
    simp [hage, hd]
  · intro hd
    unfold inMemoryGet inMemorySet
    simp [hage, Nat.not_lt.mpr hd]

/-- C8 witness for `inMemory_roundtrip`: a concrete entry read back
immediately (hit with the stored response) and at exactly one hour of
age (miss). -/
theorem inMemory_roundtrip_witness :
    (inMemoryGet
        (inMemorySet (fun _ => none) "k"
          ⟨⟨"hi", "openai", "gpt-3.5-turbo", 5, 2, 0⟩, 0,
            "openai", "gpt-3.5-turbo", "k"⟩ 60000000000 0)
        "k" (0 + 0) =
      (some ⟨⟨"hi", "openai", "gpt-3.5-turbo", 5, 2, 0⟩, 0,
          "openai", "gpt-3.5-turbo", "k"⟩,
       inMemorySet (fun _ => none) "k"
         ⟨⟨"hi", "openai", "gpt-3.5-turbo", 5, 2, 0⟩, 0,
           "openai", "gpt-3.5-turbo", "k"⟩ 60000000000 0)) ∧
    (inMemoryGet
        (inMemorySet (fun _ => none) "k"
          ⟨⟨"hi", "openai", "gpt-3.5-turbo", 5, 2, 0⟩, 0,
            "openai", "gpt-3.5-turbo", "k"⟩ 60000000000 0)
        "k" (0 + hourNs) =
      (none,
       fun k => if k = "k" then none
         else inMemorySet (fun _ => none) "k"
           ⟨⟨"hi", "openai", "gpt-3.5-turbo", 5, 2, 0⟩, 0,
             "openai", "gpt-3.5-turbo", "k"⟩ 60000000000 0 k)) :=
  ⟨(inMemory_roundtrip (fun _ => none) "k"
      ⟨⟨"hi", "openai", "gpt-3.5-turbo", 5, 2, 0⟩, 0,
        "openai", "gpt-3.5-turbo", "k"⟩ 60000000000 0 0).1
      (by decide),
   (inMemory_roundtrip (fun _ => none) "k"
      ⟨⟨"hi", "openai", "gpt-3.5-turbo", 5, 2, 0⟩, 0,
        "openai", "gpt-3.5-turbo", "k"⟩ 60000000000 0 hourNs).2
      (le_refl hourNs)⟩

/-- Splitting a list at a separator character is unambiguous when the
left parts do not contain the separator. -/
theorem sep_split_inj (c : Char) :
    ∀ (a b r s : List Char), c ∉ a → c ∉ b →
      a ++ c :: r = b ++ c :: s → a = b ∧ r = s := by
  intro a
  induction a with
  | nil =>
      intro b r s _ hb h
      cases b with
      | nil => simpa using h
      | cons y ys =>
          simp only [List.nil_append, List.cons_append, List.cons.injEq] at h
          exact absurd (h.1 ▸ List.mem_cons_self y ys) (h.1 ▸ hb)
  | cons x xs ih =>
      intro b r s ha hb h
      cases b with
      | nil =>
          simp only [List.cons_append, List.nil_append, List.cons.injEq] at h
          exact absurd (h.1 ▸ List.mem_cons_self x xs) (fun hm => ha (h.1 ▸ hm))
      | cons y ys =>
          simp only [List.cons_append, List.cons.injEq] at h
          have hxs : c ∉ xs := fun hm => ha (List.mem_cons_of_mem x hm)
          have hys : c ∉ ys := fun hm => hb (List.mem_cons_of_mem y hm)
          obtain ⟨h1, h2⟩ := ih ys r s hxs hys h.2
          exact ⟨by rw [h.1, h1], h2⟩

/-- Character-list view of the pre-digest cache-key string. -/
theorem generateCacheKeyInput_data (p t pr m : String) :
    (generateCacheKeyInput p t pr m).data =
      p.data ++ ':' :: (t.data ++ ':' :: (pr.data ++ ':' :: m.data)) := by
  unfold generateCacheKeyInput
  simp [String.data_append]

/-- C7 counterexample.  The source joins the four fields with `":"`
(`fmt.Sprintf("%s:%s:%s:%s", …)`), not with `"\x00"`, and the colon
join is not injective: the distinct inputs `("a:b", "c")` and
`("a", "b:c")` produce the same digest input, contradicting both the
claimed separator and the claimed distinctness of digest inputs. -/
theorem cacheKeyInput_not_nul_separated :
    generateCacheKeyInput "a:b" "c" "p" "m" =
      generateCacheKeyInput "a" "b:c" "p" "m" ∧
    ("a:b", "c") ≠ ("a", "b:c") ∧
    generateCacheKeyInput "a" "b" "c" "d" ≠
      "a" ++ "\x00" ++ "b" ++ "\x00" ++ "c" ++ "\x00" ++ "d" := by
  refine ⟨rfl, by decide, ?_⟩
  decide

/-- C7 amended.  The cache key is the digest of the four fields joined
with `":"`; the join is exact on the raw strings (hence case- and
whitespace-sensitive), and two inputs differing in any field yield
different digest inputs provided the prompt, task type and provider
contain no `':'` character. -/
theorem cacheKeyInput_colon_join_inj
    (p t pr m p' t' pr' m' : String)
    (hp : ':' ∉ p.data) (ht : ':' ∉ t.data) (hpr : ':' ∉ pr.data)
    (hp' : ':' ∉ p'.data) (ht' : ':' ∉ t'.data) (hpr' : ':' ∉ pr'.data)
    (h : generateCacheKeyInput p t pr m = generateCacheKeyInput p' t' pr' m') :
    p = p' ∧ t = t' ∧ pr = pr' ∧ m = m' := by
  have hd : (generateCacheKeyInput p t pr m).data =
      (generateCacheKeyInput p' t' pr' m').data := by rw [h]
  rw [generateCacheKeyInput_data, generateCacheKeyInput_data] at hd
  obtain ⟨h1, hd⟩ := sep_split_inj ':' _ _ _ _ hp hp' hd
  obtain ⟨h2, hd⟩ := sep_split_inj ':' _ _ _ _ ht ht' hd
  obtain ⟨h3, hd⟩ := sep_split_inj ':' _ _ _ _ hpr hpr' hd
  exact ⟨String.ext h1, String.ext h2, String.ext h3, String.ext hd⟩

/-- C7 witness for `cacheKeyInput_colon_join_inj` at concrete
colon-free fields. -/
theorem cacheKeyInput_colon_join_inj_witness :
    ("Hello World " : String) = "Hello World " ∧
    ("text-generation" : String) = "text-generation" ∧
    ("openai" : String) = "openai" ∧
    ("gpt-4" : String) = "gpt-4" :=
  cacheKeyInput_colon_join_inj "Hello World " "text-generation" "openai"
    "gpt-4" "Hello World " "text-generation" "openai" "gpt-4"
    (by decide) (by decide) (by decide)
    (by decide) (by decide) (by decide) rfl

/-- Decoding inverts encoding on one hex digit. -/
theorem fromHexChar_hexDigitChar (n : Nat) (h : n < 16) :
    fromHexChar (hexDigitChar n) = some n := by
  interval_cases n <;> decide

/-- Decoding inverts encoding on a byte list whose entries are bytes. -/
theorem hexDecodeChars_encode :
    ∀ bs : List Nat, (∀ b ∈ bs, b < 256) →
      hexDecodeChars (bs.foldr (fun b acc => hexEncodeByte b ++ acc) []) =
        some bs := by
  intro bs
  induction bs with
  | nil => intro _; rfl
  | cons b rest ih =>
      intro h
      have hb : b < 256 := h b (List.mem_cons_self b rest)
      have hhi : b / 16 < 16 := by omega
      have hlo : b % 16 < 16 := Nat.mod_lt b (by omega)
      show hexDecodeChars
        (hexDigitChar (b / 16) :: hexDigitChar (b % 16) ::
          rest.foldr (fun b acc => hexEncodeByte b ++ acc) []) = _
      unfold hexDecodeChars
      rw [fromHexChar_hexDigitChar _ hhi, fromHexChar_hexDigitChar _ hlo,
        ih (fun b hb => h b (List.mem_cons_of_mem _ hb))]
      show some ((b / 16 * 16 + b % 16) :: rest) = some (b :: rest)
      have : b / 16 * 16 + b % 16 = b := by omega
      rw [this]

/-- Hex round trip, as Go's `hex.DecodeString ∘ hex.EncodeToString`. -/
theorem hexDecode_hexEncode (bs : List Nat) (h : ∀ b ∈ bs, b < 256) :
    hexDecode (hexEncode bs) = some bs :=
  hexDecodeChars_encode bs h

/-- C10.  For every plaintext and every secret whose hex decoding is
exactly 32 bytes, encryption succeeds and produces the hex encoding of
the GCM nonce followed by the ciphertext, and decryption of that output
with the same secret recovers the plaintext.  The AES-GCM primitive
(Go standard library) is abstracted as any scheme whose `Open` inverts
`Seal` under the same key and nonce and whose output consists of
bytes. -/
theorem aesgcm_encrypt_decrypt_roundtrip (gcm : GCMScheme)
    (nonce plaintext key : List Nat) (secret : String)
    (hkey : hexDecode secret = some key) (hlen : key.length = 32)
    (hnl : nonce.length = gcm.nonceSize)
    (hnb : ∀ b ∈ nonce, b < 256)
    (hsb : ∀ b ∈ gcm.sealG key nonce plaintext, b < 256)
    (hopen : gcm.openG key nonce (gcm.sealG key nonce plaintext) =
      some plaintext) :
    EncryptAESGCM gcm nonce plaintext secret =
      .ok (hexEncode (nonce ++ gcm.sealG key nonce plaintext)) ∧
    DecryptAESGCM gcm
      (hexEncode (nonce ++ gcm.sealG key nonce plaintext)) secret =
      .ok plaintext := by
  have hget : getKeyBytes secret = .ok key := by
    unfold getKeyBytes
    rw [hkey]
    simp [hlen]
  have hbytes : ∀ b ∈ nonce ++ gcm.sealG key nonce plaintext, b < 256 := by
    intro b hb
    rcases List.mem_append.mp hb with h' | h'
    · exact hnb b h'
    · exact hsb b h'
  constructor
  · unfold EncryptAESGCM
    rw [hget]
  · unfold DecryptAESGCM
    rw [hget, hexDecode_hexEncode _ hbytes]
    have hlen2 : ¬((nonce ++ gcm.sealG key nonce plaintext).length <
        gcm.nonceSize) := by
      rw [List.length_append, hnl]
      omega
    have htake : (nonce ++ gcm.sealG key nonce plaintext).take
        gcm.nonceSize = nonce := by
      rw [← hnl, List.take_left]
    have hdrop : (nonce ++ gcm.sealG key nonce plaintext).drop
        gcm.nonceSize = gcm.sealG key nonce plaintext := by
      rw [← hnl, List.drop_left]
    simp [hlen2, htake, hdrop, hopen]
    omega

/-- C10 witness for `aesgcm_encrypt_decrypt_roundtrip`: the identity
scheme with a 1-byte nonce, an all-zero 32-byte key given as 64 hex
characters, nonce `[0]` and plaintext `[1, 2]`. -/
theorem aesgcm_encrypt_decrypt_roundtrip_witness :
    EncryptAESGCM ⟨1, fun _ _ p => p, fun _ _ ct => some ct⟩ [0] [1, 2]
        "0000000000000000000000000000000000000000000000000000000000000000" =
      .ok (hexEncode ([0] ++ [1, 2])) ∧
    DecryptAESGCM ⟨1, fun _ _ p => p, fun _ _ ct => some ct⟩
        (hexEncode ([0] ++ [1, 2]))
        "0000000000000000000000000000000000000000000000000000000000000000" =
      .ok [1, 2] :=
  aesgcm_encrypt_decrypt_roundtrip ⟨1, fun _ _ p => p, fun _ _ ct => some ct⟩
    [0] [1, 2] (List.replicate 32 0)
    "0000000000000000000000000000000000000000000000000000000000000000"
    (by decide) (by decide) rfl (by decide) (by decide) rfl

/-- C2 counterexample.  The per-attempt budget the executor actually
sets is a flat 30 s on a fresh background context, not
`min(remaining_deadline, avg_latency_ms × 3, 30 s)`: with 500 ms of
caller deadline remaining and a 2000 ms average-latency provider the
specified budget would be 500 ms.  Consequently a single hanging
candidate (an adapter that consumes its full context budget) keeps a
request busy for 30 s, exceeding the 500 ms caller deadline. -/
theorem attempt_timeout_ignores_deadline :
    attemptTimeoutNs ≠ specAttemptTimeoutNs 500000000 2000 ∧
    (tryCandidates ["openai"]
        (fun _ _ _ => (attemptTimeoutNs, .error "Timeout"))
        0 "hello" [("openai", "gpt-4")] emptyStatus).2.2.1 =
      30000000000 ∧
    ¬(30000000000 ≤ 500000000) := by
  refine ⟨by decide, rfl, by decide⟩

/-- Wall time of one attempt is bounded by the 30 s context budget
whenever the adapter honors its context deadline. -/
theorem makeAIRequest_duration_le (registry : List String)
    (behavior : AdapterBehavior) (provider model prompt : String)
    (h : ∀ p m pr, (behavior p m pr).1 ≤ attemptTimeoutNs) :
    (makeAIRequest registry behavior provider model prompt).2.2 ≤
      attemptTimeoutNs := by
  unfold makeAIRequest
  by_cases hp : provider ∈ registry
  · rcases hb : behavior provider model prompt with ⟨d, r⟩
    have hd : d ≤ attemptTimeoutNs := by
      have := h provider model prompt
      rw [hb] at this
      exact this
    cases r <;> simp [hp, hb, hd]
  · simp [hp]

/-- C2 amended.  The executor enforces no caller deadline: each attempt
runs under a flat 30 s context budget independent of the remaining
deadline and the provider's average latency, and for a candidate list
of length n the total elapsed wall time is bounded by n × 30 s (which
can exceed any caller deadline shorter than that). -/
theorem tryCandidates_elapsed_bound (registry : List String)
    (behavior : AdapterBehavior) (now : Nat) (prompt : String)
    (candidates : List (String × String)) (status : StatusMap)
    (h : ∀ p m pr, (behavior p m pr).1 ≤ attemptTimeoutNs) :
    (tryCandidates registry behavior now prompt candidates status).2.2.1 ≤
      candidates.length * attemptTimeoutNs := by
  induction candidates generalizing status with
  | nil => simp [tryCandidates]
  | cons c rest ih =>
      obtain ⟨p, m⟩ := c
      have hdur := makeAIRequest_duration_le registry behavior p m prompt h
      unfold tryCandidates
      rcases hm : makeAIRequest registry behavior p m prompt
        with ⟨res, calls, duration⟩
      rw [hm] at hdur
      simp only at hdur
      cases res with
      | ok resp =>
          simp only [List.length_cons]
          calc duration ≤ attemptTimeoutNs := hdur
          _ ≤ (rest.length + 1) * attemptTimeoutNs := by
              have : 1 * attemptTimeoutNs ≤ (rest.length + 1) *
                  attemptTimeoutNs :=
                Nat.mul_le_mul_right _ (by omega)
              omega
      | error e =>
          have hrec := ih (UpdateProviderStatus status now p m false (some e))
          simp only [List.length_cons]
          rcases hr : tryCandidates registry behavior now prompt rest
            (UpdateProviderStatus status now p m false (some e))
            with ⟨outcome, calls', duration', status''⟩
          rw [hr] at hrec
          simp only at hrec
          have : duration + duration' ≤ attemptTimeoutNs +
              rest.length * attemptTimeoutNs := by omega
          calc duration + duration' ≤
              attemptTimeoutNs + rest.length * attemptTimeoutNs := this
          _ = (rest.length + 1) * attemptTimeoutNs := by ring

/-- C2 witness for `tryCandidates_elapsed_bound`: two candidates with a
1 s adapter behavior stay within 2 × 30 s. -/
theorem tryCandidates_elapsed_bound_witness :
    (tryCandidates ["openai"] (fun _ _ _ => (1000000000, .error "boom"))
        0 "hi" [("openai", "gpt-4"), ("claude", "claude-3-opus")]
        emptyStatus).2.2.1 ≤
      ([("openai", "gpt-4"), ("claude", "claude-3-opus")] :
        List (String × String)).length * attemptTimeoutNs :=
  tryCandidates_elapsed_bound ["openai"]
    (fun _ _ _ => (1000000000, .error "boom")) 0 "hi"
    [("openai", "gpt-4"), ("claude", "claude-3-opus")] emptyStatus
    (fun _ _ _ => (by decide : (1000000000 : Nat) ≤ attemptTimeoutNs))

/-- Quality matrix value for `(gpt-4, text-generation)`. -/
theorem quality_gpt4_tg : calculateQualityScore gpt4TG "text-generation" = 0.95 := rfl

/-- Quality matrix value for `(gpt-3.5-turbo, text-generation)`. -/
theorem quality_turbo_tg : calculateQualityScore turboTG "text-generation" = 0.80 := rfl

/-- Quality matrix value for `(claude-3-opus, text-generation)`. -/
theorem quality_opus_tg : calculateQualityScore opusTG "text-generation" = 0.98 := rfl

/-- Quality matrix value for `(claude-3-sonnet, text-generation)`. -/
theorem quality_sonnet_tg : calculateQualityScore sonnetTG "text-generation" = 0.85 := rfl

/-- Quality matrix value for `(gemini-pro, text-generation)`. -/
theorem quality_gemini_tg : calculateQualityScore geminiTG "text-generation" = 0.75 := rfl

/-- Routing score of `gpt4TG` for a 5-character text-generation prompt. -/
theorem score_gpt4_tg : calculateScore gpt4TG 5 "text-generation" = 0.68 := by
  simp only [calculateScore, quality_gpt4_tg]
  norm_num [gpt4TG, defaultCriteria, ratMin]

/-- Routing score of `turboTG` for a 5-character text-generation prompt. -/
theorem score_turbo_tg : calculateScore turboTG 5 "text-generation" = 0.878 := by
  simp only [calculateScore, quality_turbo_tg]
  norm_num [turboTG, defaultCriteria, ratMin]

/-- Routing score of `opusTG` for a 5-character text-generation prompt. -/
theorem score_opus_tg : calculateScore opusTG 5 "text-generation" = 0.722 := by
  simp only [calculateScore, quality_opus_tg]
  norm_num [opusTG, defaultCriteria, ratMin]

/-- Routing score of `sonnetTG` for a 5-character text-generation prompt. -/
theorem score_sonnet_tg : calculateScore sonnetTG 5 "text-generation" = 0.862 := by
  simp only [calculateScore, quality_sonnet_tg]
  norm_num [sonnetTG, defaultCriteria, ratMin]

/-- Routing score of `geminiTG` for a 5-character text-generation prompt. -/
theorem score_gemini_tg : calculateScore geminiTG 5 "text-generation" = 0.774 := by
  simp only [calculateScore, quality_gemini_tg]
  norm_num [geminiTG, defaultCriteria, ratMin]

/-- Best provider for a 5-character text-generation prompt:
`gpt-3.5-turbo` wins with score 0.878. -/
theorem scoreProviders_tg_5 :
    scoreProviders [gpt4TG, turboTG, opusTG, sonnetTG, geminiTG] 5
      "text-generation" = turboTG := by
  unfold scoreProviders
  simp only [List.foldl, score_gpt4_tg, score_turbo_tg, score_opus_tg,
    score_sonnet_tg, score_gemini_tg]
  norm_num

/-- Reasoning strings produced by `generateReasoning` always start with
"Selected for", so they never equal the cache-hit marker. -/
theorem generateReasoning_ne_cacheHit (p : Provider) (t : String) :
    generateReasoning p t ≠ cacheHitReasoning := by
  unfold generateReasoning cacheHitReasoning
  intro h
  have hd := congrArg String.data h
  rw [String.data_append, String.data_append, String.data_append] at hd
  have hS : ("Selected for " : String).data =
      'S' :: ("elected for " : String).data := rfl
  have hC : ("Cache hit - returning cached result" : String).data =
      'C' :: ("ache hit - returning cached result" : String).data := rfl
  rw [hS, hC] at hd
  simp only [List.cons_append, List.cons.injEq] at hd
  exact absurd hd.1 (by decide)

/-- Automatic routing of the unpinned 5-character prompt "hello" with an
empty cache and no health records: `gpt-3.5-turbo` is selected. -/
theorem routeRequest_hello_auto :
    RouteRequest id (fun _ => none) emptyStatus 0 "hello"
      "text-generation" "" "" =
      (.ok ⟨"openai", "gpt-3.5-turbo",
            calculateConfidence turboTG
              [gpt4TG, turboTG, opusTG, sonnetTG, geminiTG],
            generateReasoning turboTG "text-generation",
            getFallbacks "text-generation" "openai" "gpt-3.5-turbo"⟩,
       (fun _ => none)) := by
  unfold RouteRequest autoRoute
  have hlen : ("hello" : String).length = 5 := rfl
  simp [inMemoryGet, providersForTask, availableProviders, hlen,
    scoreProviders_tg_5]
  simp [turboTG]

/-- C4 amended.  Scoring weights supplied in the request options are
never read: the pipeline's outcome is identical for any two weight
options (the scorer always uses the fixed default weights), and no
weight validation or `InvalidWeights` failure exists anywhere on the
path. -/
theorem request_weights_ignored (digest : String → String)
    (registry : List String) (behavior : AdapterBehavior)
    (cacheData : CacheMap) (status : StatusMap) (now : Nat)
    (prompt taskType model provider : String) (maxTokens : Nat)
    (w w' : Option (ℚ × ℚ × ℚ × ℚ)) :
    AIQuery digest registry behavior cacheData status now
      ⟨prompt, taskType, model, maxTokens, provider, w⟩ =
    AIQuery digest registry behavior cacheData status now
      ⟨prompt, taskType, model, maxTokens, provider, w'⟩ := rfl

/-- C4 counterexample.  A request carrying weights `(0.5, 0.5, 0.5,
0.1)` — which sum to 1.6, far outside 1.0 ± 0.01 — is not rejected:
routing proceeds, the adapter is invoked once, and the request
succeeds. -/
theorem invalid_weights_not_rejected :
    ¬(|(0.5 + 0.5 + 0.5 + 0.1 : ℚ) - 1| ≤ 0.01) ∧
    (AIQuery id ["openai"]
        (fun provider model _ =>
          (0, .ok ⟨"ok", provider, model, 5, 2, 0.001⟩))
        (fun _ => none) emptyStatus 0
        ⟨"hello", "text-generation", "", 0, "",
          some (0.5, 0.5, 0.5, 0.1)⟩).1 =
      .ok ⟨"ok", "openai", "gpt-3.5-turbo", 5, 2, 0.001, false⟩ ∧
    (AIQuery id ["openai"]
        (fun provider model _ =>
          (0, .ok ⟨"ok", provider, model, 5, 2, 0.001⟩))
        (fun _ => none) emptyStatus 0
        ⟨"hello", "text-generation", "", 0, "",
          some (0.5, 0.5, 0.5, 0.1)⟩).2.1 = 1 := by
  refine ⟨by rw [abs_le]; push_neg; intro _; norm_num, ?_⟩
  unfold AIQuery RouteRequestWithFallback
  rw [routeRequest_hello_auto]
  simp [generateReasoning_ne_cacheHit turboTG "text-generation",
    makeAIRequestWithEnhancedFallback, tryCandidates, makeAIRequest]

/-- Every element of a swapped array is an element of the original. -/
theorem mem_of_mem_swap (a : Array Provider) (i j : Fin a.size)
    (x : Provider) (h : x ∈ a.swap i j) : x ∈ a := by
  obtain ⟨k, hk, hkx⟩ := Array.getElem_of_mem h
  rw [Array.getElem_swap] at hkx
  subst hkx
  split
  · exact Array.getElem_mem j.isLt
  · split
    · exact Array.getElem_mem i.isLt
    · exact Array.getElem_mem (by simpa [Array.size_swap] using hk)

/-- The inner sorting loop preserves the array size. -/
theorem sortRelInner_size (i fuel : Nat) :
    ∀ (j : Nat) (a : Array Provider),
      (sortRelInner a i j fuel).size = a.size := by
  induction fuel with
  | zero => intro j a; rfl
  | succ n ih =>
      intro j a
      unfold sortRelInner
      by_cases hj : j < a.size
      · by_cases hi : i < a.size
        · simp only [hj, hi, dif_pos]
          split
          · rw [ih (j + 1)]
            exact Array.size_swap a _ _
          · exact ih (j + 1) a
        · simp [hj, hi]
      · simp [hj]

/-- Elements of the inner loop's result come from its input. -/
theorem mem_of_mem_sortRelInner (i fuel : Nat) :
    ∀ (j : Nat) (a : Array Provider) (x : Provider),
      x ∈ sortRelInner a i j fuel → x ∈ a := by
  induction fuel with
  | zero => intro j a x h; exact h
  | succ n ih =>
      intro j a x h
      unfold sortRelInner at h
      by_cases hj : j < a.size
      · by_cases hi : i < a.size
        · simp only [hj, hi, dif_pos] at h
          by_cases hv : (a.get ⟨i, hi⟩).reliability <
              (a.get ⟨j, hj⟩).reliability
          · rw [if_pos hv] at h
            exact mem_of_mem_swap a _ _ x (ih (j + 1) _ x h)
          · rw [if_neg hv] at h
            exact ih (j + 1) a x h
        · simp only [hj, hi, dif_pos, dif_neg, not_false_iff] at h
          exact h
      · simp only [hj, dif_neg, not_false_iff] at h
        exact h

/-- The outer sorting loop preserves the array size. -/
theorem sortRelOuter_size (fuel : Nat) :
    ∀ (a : Array Provider) (i : Nat),
      (sortRelOuter a i fuel).size = a.size := by
  induction fuel with
  | zero => intro a i; rfl
  | succ n ih =>
      intro a i
      unfold sortRelOuter
      by_cases hlt : i + 1 < a.size
      · simp only [hlt, if_pos]
        rw [ih, sortRelInner_size]
      · simp [hlt]

/-- Elements of the outer loop's result come from its input. -/
theorem mem_of_mem_sortRelOuter (fuel : Nat) :
    ∀ (a : Array Provider) (i : Nat) (x : Provider),
      x ∈ sortRelOuter a i fuel → x ∈ a := by
  induction fuel with
  | zero => intro a i x h; exact h
  | succ n ih =>
      intro a i x h
      unfold sortRelOuter at h
      by_cases hlt : i + 1 < a.size
      · rw [if_pos hlt] at h
        exact mem_of_mem_sortRelInner i a.size (i + 1) a x (ih _ _ x h)
      · rw [if_neg hlt] at h
        exact h

/-- The reliability sort keeps the number of fallback candidates. -/
theorem sortByReliability_length (l : List Provider) :
    (sortByReliability l).length = l.length := by
  unfold sortByReliability
  rw [Array.length_toList, sortRelOuter_size, Array.size_toArray]

/-- Elements of the reliability sort's result come from its input. -/
theorem mem_of_mem_sortByReliability (l : List Provider) (x : Provider)
    (h : x ∈ sortByReliability l) : x ∈ l := by
  unfold sortByReliability at h
  rw [Array.mem_toList] at h
  have := mem_of_mem_sortRelOuter l.length l.toArray 0 x h
  simpa using this

/-- The `getFallbacks` loop never grows past 2 entries. -/
theorem getFallbacksLoop_length (exP exM : String) :
    ∀ (providers acc : List Provider), acc.length ≤ 1 →
      (getFallbacksLoop exP exM providers acc).length ≤ 2 := by
  intro providers
  induction providers with
  | nil => intro acc hacc; unfold getFallbacksLoop; omega
  | cons p rest ih =>
      intro acc hacc
      unfold getFallbacksLoop
      by_cases hkeep : p.name ≠ exP ∨ p.model ≠ exM
      · simp only [hkeep, if_pos]
        by_cases hbrk : (acc ++ [p]).length ≥ 2
        · simp only [hbrk, if_pos]
          rw [List.length_append]
          simp
          omega
        · simp only [hbrk, if_neg, if_false, ite_false]
          have : (acc ++ [p]).length ≤ 1 := by omega
          exact ih _ this
      · simp only [hkeep, if_neg, if_false, ite_false]
        by_cases hbrk : acc.length ≥ 2
        · simp only [hbrk, if_pos]
          omega
        · simp only [hbrk, if_neg, if_false, ite_false]
          exact ih _ hacc

/-- The `getFallbacks` loop only appends candidates that differ from the
excluded pair. -/
theorem getFallbacksLoop_all (exP exM : String) :
    ∀ (providers acc : List Provider),
      acc.all (fun p => !(decide (p.name = exP ∧ p.model = exM))) = true →
      (getFallbacksLoop exP exM providers acc).all
        (fun p => !(decide (p.name = exP ∧ p.model = exM))) = true := by
  intro providers
  induction providers with
  | nil => intro acc hacc; exact hacc
  | cons p rest ih =>
      intro acc hacc
      unfold getFallbacksLoop
      by_cases hkeep : p.name ≠ exP ∨ p.model ≠ exM
      · have hp : (!(decide (p.name = exP ∧ p.model = exM))) = true := by
          simp only [Bool.not_eq_true', decide_eq_false_iff_not]
          rintro ⟨h1, h2⟩
          rcases hkeep with hk | hk
          · exact hk h1
          · exact hk h2
        have hacc' : (acc ++ [p]).all
            (fun p => !(decide (p.name = exP ∧ p.model = exM))) = true := by
          rw [List.all_append, Bool.and_eq_true]
          refine ⟨hacc, ?_⟩
          simp only [List.all_cons, List.all_nil, Bool.and_true]
          exact hp
        simp only [hkeep, if_pos]
        by_cases hbrk : (acc ++ [p]).length ≥ 2
        · simp only [hbrk, if_pos]
          exact hacc'
        · simp only [hbrk, if_neg, if_false, ite_false]
          exact ih _ hacc'
      · simp only [hkeep, if_neg, if_false, ite_false]
        by_cases hbrk : acc.length ≥ 2
        · simp only [hbrk, if_pos]
          exact hacc
        · simp only [hbrk, if_neg, if_false, ite_false]
          exact ih _ hacc

/-- C5 counterexample.  With every provider healthy, the handler-path
fallback list for a text-generation request excluding the primary
`(openai, gpt-4)` holds all 4 remaining descriptors — more than the
claimed maximum of 3. -/
theorem fallback_list_exceeds_three :
    (GetFallbackProviders emptyStatus 0 "text-generation"
      "openai" "gpt-4").length = 4 ∧ ¬((4 : Nat) ≤ 3) := by
  constructor
  · unfold GetFallbackProviders
    rw [sortByReliability_length]
    rfl
  · decide

/-- C5 amended.  Fallback lists never contain the excluded primary
(provider, model) pair, but the two computations differ from the claim:
the handler path (`GetFallbackProviders`) returns every healthy
non-primary candidate for the task — unbounded, 4 entries in the
counterexample scenario — sorted by descending reliability, while the
autoRoute path (`getFallbacks`) returns at most 2 candidates in
registration order. -/
theorem fallback_lists_never_contain_primary :
    (∀ (m : StatusMap) (now : Nat) (taskType exP exM : String),
      (GetFallbackProviders m now taskType exP exM).all
        (fun p => !(decide (p.name = exP ∧ p.model = exM))) = true) ∧
    (∀ taskType exP exM : String,
      (getFallbacks taskType exP exM).length ≤ 2 ∧
      (getFallbacks taskType exP exM).all
        (fun p => !(decide (p.name = exP ∧ p.model = exM))) = true) := by
  constructor
  · intro m now taskType exP exM
    rw [List.all_eq_true]
    intro x hx
    unfold GetFallbackProviders at hx
    have hx' := mem_of_mem_sortByReliability _ _ hx
    rw [List.mem_filter] at hx'
    have := hx'.2
    rw [Bool.and_eq_true] at this
    exact this.1
  · intro taskType exP exM
    exact ⟨getFallbacksLoop_length exP exM _ [] (by simp),
           getFallbacksLoop_all exP exM _ [] rfl⟩

/-- C1.  On a cache hit the handler returns `cache_hit=true`, `cost=0`
and makes zero adapter calls, but the content it returns is the
placeholder string `"Cached response for: " + prompt` — not the cached
normalized response's content.  Here the cache holds content `"hi"` for
the fingerprint of (`"hello"`, text-generation, openai, gpt-3.5-turbo)
and the identical pinned request is served with the placeholder. -/
theorem cache_hit_returns_placeholder_not_cached_content :
    (AIQuery id [] (fun _ _ _ => (0, .error "no adapter"))
        (fun k =>
          if k = "hello:text-generation:openai:gpt-3.5-turbo" then
            some ⟨⟨"hi", "openai", "gpt-3.5-turbo", 5, 2, 0.002⟩, 0,
                  "openai", "gpt-3.5-turbo",
                  "hello:text-generation:openai:gpt-3.5-turbo"⟩
          else none)
        emptyStatus 0
        ⟨"hello", "text-generation", "gpt-3.5-turbo", 0, "openai", none⟩).1 =
      .ok ⟨"Cached response for: hello", "openai", "gpt-3.5-turbo",
           0, 0, 0, true⟩ ∧
    (AIQuery id [] (fun _ _ _ => (0, .error "no adapter"))
        (fun k =>
          if k = "hello:text-generation:openai:gpt-3.5-turbo" then
            some ⟨⟨"hi", "openai", "gpt-3.5-turbo", 5, 2, 0.002⟩, 0,
                  "openai", "gpt-3.5-turbo",
                  "hello:text-generation:openai:gpt-3.5-turbo"⟩
          else none)
        emptyStatus 0
        ⟨"hello", "text-generation", "gpt-3.5-turbo", 0, "openai", none⟩).2.1 =
      0 ∧
    ("Cached response for: hello" : String) ≠ "hi" := by
  refine ⟨?_, ?_, by decide⟩
  · unfold AIQuery RouteRequestWithFallback RouteRequest
    simp [inMemoryGet, GenerateCacheKey, generateCacheKeyInput, hourNs,
      cacheHitReasoning]
  · unfold AIQuery RouteRequestWithFallback RouteRequest
    simp [inMemoryGet, GenerateCacheKey, generateCacheKeyInput, hourNs,
      cacheHitReasoning]

end OrcaAI
